import Mathlib

/-!
Verification of `mmcv/ops/ThreeNNForVectorPoolByTwoStep.py`
(`ThreeNNVectorPoolByTwoStep.forward`).

The Python `forward` orchestrates two native kernels
(`stack_query_local_neighbor_idxs`, the gather scan, and
`stack_query_three_nn_local_idxs`, the three-nearest-neighbor refiner)
whose implementations live in the compiled `_ext` extension and are not
part of the Python source.  The orchestration itself — zero
initialisation of the output tensors, the capacity-retry loop, the
estimate recomputation `cumsum // n + int(cumsum % n > 0)`, the
acceptance test `cumsum <= num_max_sum_points`, the truncation
`stack_neighbor_idxs[:cumsum[0]]` and the final
`torch.sqrt(new_xyz_grid_dist2)` — is embedded faithfully below.  The
two kernels are abstract parameters (`scan`, and the per-slot write
functions of the refiner); where a claim depends on kernel behaviour
that the Python source does not contain, the kernel is modelled from the
specification and the definition says so in its doc comment.
-/

namespace ThreeNNPool

/-- The per-pass mutable state allocated at the top of each iteration of
the `while True:` loop in `forward`: the flat candidate index buffer
`stack_neighbor_idxs`, the per-center `(offset, length)` records
`start_len`, and the running counter `cumsum` (a single cell, read as
`cumsum[0]`). -/
structure PassState where
  stackNeighborIdxs : List Int
  startLen : List (Nat × Nat)
  cumsum : Nat
deriving Repr, DecidableEq

/-- The freshly allocated state at the start of a pass:
`stack_neighbor_idxs = new_zeros(num_max_sum_points)`,
`start_len = new_zeros(num_new_xyz, 2)`, `cumsum = new_zeros(1)`. -/
def initPassState (numMaxSumPoints numNewXyz : Nat) : PassState where
  stackNeighborIdxs := List.replicate numMaxSumPoints 0
  startLen := List.replicate numNewXyz (0, 0)
  cumsum := 0

/-- The estimate recomputation executed after every scan:
`cumsum[0].item() // num_new_xyz + int(cumsum[0].item() % num_new_xyz > 0)`.
Defined only for `numNewXyz ≠ 0`; the caller `gatherLoop` models the
Python `ZeroDivisionError` explicitly before evaluating this. -/
def recomputeEstimate (consumed numNewXyz : Nat) : Nat :=
  consumed / numNewXyz + (if consumed % numNewXyz > 0 then 1 else 0)

/-- Result of the gather retry loop.  `ok` carries the truncated
candidate buffer `stack_neighbor_idxs[:cumsum[0]]`, the `start_len`
records, the consumed total `cumsum[0]`, the capacity
`num_max_sum_points` of the accepted pass, and the final (recomputed)
`avg_length_of_neighbor_idxs`.  `zeroDivisionError` is the Python
`ZeroDivisionError` raised by `// num_new_xyz` when `num_new_xyz = 0`;
`fuelOut` marks exhaustion of the explicit fuel used to embed the
unbounded `while True:` loop. -/
inductive GatherOutcome where
  | ok (stackNeighborIdxs : List Int) (startLen : List (Nat × Nat))
      (consumed capacity finalEstimate : Nat)
  | zeroDivisionError
  | fuelOut
deriving Repr, DecidableEq

/-- The `while True:` capacity-retry loop of `forward`, embedded with
explicit fuel.  `scan` is the native gather kernel
`stack_query_local_neighbor_idxs`, an abstract parameter: it receives
the current estimate (passed to the kernel as
`avg_length_of_neighbor_idxs`) and the freshly allocated pass state, and
returns the mutated state.  Each iteration computes
`num_max_sum_points = est * numNewXyz`, runs the scan on freshly zeroed
buffers, recomputes the estimate (raising `ZeroDivisionError` when
`numNewXyz = 0`, as Python `//` does), and breaks when
`cumsum[0] <= num_max_sum_points`; the truncation
`stack_neighbor_idxs[:cumsum[0]]` from after the loop is applied to the
accepted buffer. -/
def gatherLoop (scan : Nat → PassState → PassState) (numNewXyz : Nat) :
    Nat → Nat → GatherOutcome
  | 0, _ => .fuelOut
  | fuel + 1, est =>
    let numMaxSumPoints := est * numNewXyz
    let s := scan est (initPassState numMaxSumPoints numNewXyz)
    if numNewXyz = 0 then .zeroDivisionError
    else
      let est2 := recomputeEstimate s.cumsum numNewXyz
      if s.cumsum ≤ numMaxSumPoints then
        .ok (s.stackNeighborIdxs.take s.cumsum) s.startLen s.cumsum
          numMaxSumPoints est2
      else gatherLoop scan numNewXyz fuel est2

/-- Zero initialisation of the squared-distance output:
`new_xyz_grid_dist2 = new_xyz_grid_centers.new_zeros(...)`, viewed as a
map from (query center, grid sample, slot) to a squared distance. -/
def initGridDist2 : Nat → Nat → Fin 3 → ℚ := fun _ _ _ => 0

/-- Sentinel initialisation of the index output:
`new_xyz_grid_idxs = new_zeros(...).int().fill_(-1)`. -/
def initGridIdxs : Nat → Nat → Fin 3 → Int := fun _ _ _ => -1

/-- Modelled from the spec: the write pattern of the native refiner
kernel `stack_query_three_nn_local_idxs`, which is absent from the
Python source.  Per §4.2 of the spec, for each query center `c` and grid
sample `g` the refiner scans only that center's candidate slice (located
through its `start_len` record) and fills output slots with its top-3
selection; a slot beyond the number of available candidates is left
unset, keeping its initial value ("If the candidate slice has fewer than
3 entries, remaining output slots take index −1"; "If the slice is
empty, all three slots are unset").  `written c g k` is the abstract
value the top-3 selection would store in slot `k`; slot `k` is written
exactly when the slice holds more than `k` candidates. -/
def refineSlots {α : Type} (written : Nat → Nat → Fin 3 → α)
    (startLen : List (Nat × Nat)) (ini : Nat → Nat → Fin 3 → α) :
    Nat → Nat → Fin 3 → α :=
  fun c g k =>
    match startLen[c]? with
    | some (_, len) => if (k : Nat) < min len 3 then written c g k else ini c g k
    | none => ini c g k

/-- Result of `forward`: on success the returned
`torch.sqrt(new_xyz_grid_dist2)`, the `new_xyz_grid_idxs`, and the
returned `avg_length_of_neighbor_idxs`. -/
inductive ForwardResult where
  | ok (newXyzGridDist : Nat → Nat → Fin 3 → ℝ)
      (newXyzGridIdxs : Nat → Nat → Fin 3 → Int)
      (avgLengthOfNeighborIdxs : Nat)
  | zeroDivisionError
  | fuelOut

/-- `ThreeNNVectorPoolByTwoStep.forward`: zero-initialise
`new_xyz_grid_dist2`, fill `new_xyz_grid_idxs` with `-1`, run the gather
retry loop, refine against the accepted `start_len` records, and return
`torch.sqrt(new_xyz_grid_dist2)`, `new_xyz_grid_idxs` and the final
estimate.  `scan` is the abstract gather kernel; `writtenDist2` and
`writtenIdxs` are the abstract per-slot values the refiner's top-3
selection writes (see `refineSlots`). -/
noncomputable def forward (scan : Nat → PassState → PassState)
    (writtenDist2 : Nat → Nat → Fin 3 → ℚ)
    (writtenIdxs : Nat → Nat → Fin 3 → Int)
    (numNewXyz fuel initialEstimate : Nat) : ForwardResult :=
  match gatherLoop scan numNewXyz fuel initialEstimate with
  | .fuelOut => .fuelOut
  | .zeroDivisionError => .zeroDivisionError
  | .ok _ startLen _ _ finalEstimate =>
    let dist2 := refineSlots writtenDist2 startLen initGridDist2
    let idxs := refineSlots writtenIdxs startLen initGridIdxs
    .ok (fun c g k => Real.sqrt (dist2 c g k)) idxs finalEstimate

/-- Fatal error categories of the spec's §7 taxonomy. -/
inductive FatalError where
  | inputShapeMismatch
  | invalidParameter
deriving Repr, DecidableEq

/-- Modelled from the spec: the input validation of the native
extension, absent from the Python source (the Python wrapper performs no
checks itself; §7 places them before any scan).  Batch-count arrays
whose lengths disagree are `InputShapeMismatch`; non-positive
`searchRadius`, `num_total_grids` or `initialAvgEstimate` are
`InvalidParameter`. -/
def validateInputs (xyzBatchCnt newXyzBatchCnt : List Nat)
    (searchRadius : ℚ) (numTotalGrids initialAvgEstimate : Int) :
    Option FatalError :=
  if xyzBatchCnt.length ≠ newXyzBatchCnt.length then some .inputShapeMismatch
  else if searchRadius ≤ 0 then some .invalidParameter
  else if numTotalGrids ≤ 0 then some .invalidParameter
  else if initialAvgEstimate ≤ 0 then some .invalidParameter
  else none

/-- `forward` guarded by the spec-modelled validation: a fatal category
aborts the whole call with no output produced; otherwise the gather and
refine pipeline runs. -/
noncomputable def forwardChecked (scan : Nat → PassState → PassState)
    (writtenDist2 : Nat → Nat → Fin 3 → ℚ)
    (writtenIdxs : Nat → Nat → Fin 3 → Int)
    (xyzBatchCnt newXyzBatchCnt : List Nat) (searchRadius : ℚ)
    (numTotalGrids initialAvgEstimate : Int) (numNewXyz fuel : Nat) :
    Except FatalError ForwardResult :=
  match validateInputs xyzBatchCnt newXyzBatchCnt searchRadius numTotalGrids
      initialAvgEstimate with
  | some e => .error e
  | none =>
    .ok (forward scan writtenDist2 writtenIdxs numNewXyz fuel
      initialAvgEstimate.toNat)

/-- A concrete deterministic gather kernel used to instantiate the
abstract `scan` parameter in witnesses: it reports `c` accepted
candidates and the records `r`, leaving the buffer contents as
allocated. -/
def constScan (c : Nat) (r : List (Nat × Nat)) :
    Nat → PassState → PassState :=
  fun _ s => { stackNeighborIdxs := s.stackNeighborIdxs, startLen := r, cumsum := c }

theorem recomputeEstimate_mul_ge (c n : Nat) (hn : 0 < n) :
    c ≤ recomputeEstimate c n * n := by
  unfold recomputeEstimate
  have hd : n * (c / n) + c % n = c := Nat.div_add_mod c n
  have hm : c % n < n := Nat.mod_lt c hn
  rcases Nat.eq_zero_or_pos (c % n) with h | h
  · have heq : c / n * n = c := Nat.div_mul_cancel (Nat.dvd_of_mod_eq_zero h)
    simp [h, heq]
  · rw [if_pos h]
    calc c = n * (c / n) + c % n := hd.symm
    _ ≤ n * (c / n) + n := by omega
    _ = (c / n + 1) * n := by ring

theorem gatherLoop_ok_shape (scan : Nat → PassState → PassState) (n : Nat) :
    ∀ fuel est buf sl con cap fin,
      gatherLoop scan n fuel est = .ok buf sl con cap fin →
      ∃ e,
        buf = ((scan e (initPassState (e * n) n)).stackNeighborIdxs).take
          (scan e (initPassState (e * n) n)).cumsum ∧
        sl = (scan e (initPassState (e * n) n)).startLen ∧
        con = (scan e (initPassState (e * n) n)).cumsum ∧
        cap = e * n ∧ fin = recomputeEstimate con n ∧ con ≤ cap := by
  intro fuel
  induction fuel with
  | zero => intro est buf sl con cap fin h; simp [gatherLoop] at h
  | succ m ih =>
    intro est buf sl con cap fin h
    rw [gatherLoop] at h
    by_cases hn : n = 0
    · simp [hn] at h
    · simp only [hn, if_false] at h
      by_cases hacc : (scan est (initPassState (est * n) n)).cumsum ≤ est * n
      · rw [if_pos hacc] at h
        refine ⟨est, ?_⟩
        cases h
        exact ⟨rfl, rfl, rfl, rfl, rfl, hacc⟩
      · rw [if_neg hacc] at h
        exact ih _ buf sl con cap fin h

theorem gatherLoop_succ (scan : Nat → PassState → PassState) (n fuel est : Nat) :
    gatherLoop scan n (fuel + 1) est =
      if n = 0 then .zeroDivisionError
      else if (scan est (initPassState (est * n) n)).cumsum ≤ est * n then
        .ok (((scan est (initPassState (est * n) n)).stackNeighborIdxs).take
            (scan est (initPassState (est * n) n)).cumsum)
          (scan est (initPassState (est * n) n)).startLen
          (scan est (initPassState (est * n) n)).cumsum (est * n)
          (recomputeEstimate (scan est (initPassState (est * n) n)).cumsum n)
      else gatherLoop scan n fuel
        (recomputeEstimate (scan est (initPassState (est * n) n)).cumsum n) :=
  rfl

/-- C1: with at least one query center and a gather scan that is a
deterministic function of its inputs (it reports the same consumed total
`c` on every pass), the capacity-retry loop of `forward` terminates
within at most 2 passes: an overflowed pass recomputes the estimate as
the ceiling of consumed over the number of centers, so the next pass's
capacity `estimate * n` is at least the observed demand and that pass is
accepted. -/
theorem gather_terminates_in_two_passes (scan : Nat → PassState → PassState)
    (n e0 c : Nat) (hn : 0 < n)
    (hdet : ∀ e s, (scan e s).cumsum = c) :
    ∃ buf sl cap fin,
      gatherLoop scan n 2 e0 = GatherOutcome.ok buf sl c cap fin := by
  have hn0 : n ≠ 0 := Nat.pos_iff_ne_zero.mp hn
  have h2 : (2 : Nat) = 1 + 1 := rfl
  rw [h2, gatherLoop_succ]
  simp only [hn0, if_false, hdet]
  by_cases h1 : c ≤ e0 * n
  · rw [if_pos h1]
    exact ⟨_, _, _, _, rfl⟩
  · rw [if_neg h1, gatherLoop_succ]
    simp only [hn0, if_false, hdet]
    rw [if_pos (recomputeEstimate_mul_ge c n hn)]
    exact ⟨_, _, _, _, rfl⟩

theorem gather_terminates_in_two_passes_witness :
    ∃ buf sl cap fin,
      gatherLoop (constScan 5 [(0, 5)]) 1 2 1 = GatherOutcome.ok buf sl 5 cap fin :=
  gather_terminates_in_two_passes (constScan 5 [(0, 5)]) 1 1 5 (by decide)
    (fun _ _ => rfl)

/-- C2: for every consumed total `c` and positive center count `n`, the
recomputed estimate `c // n + (1 if c % n > 0 else 0)` equals the
ceiling `⌈c / n⌉` (Nat ceiling division); consequently every accepted
pass of the gather loop satisfies `finalEstimate * n ≥ consumed`. -/
theorem recomputeEstimate_is_ceil (c n : Nat) (hn : 0 < n) :
    recomputeEstimate c n = c ⌈/⌉ n ∧
    ∀ scan fuel e0 buf sl con cap fin,
      gatherLoop scan n fuel e0 = GatherOutcome.ok buf sl con cap fin →
      con ≤ fin * n := by
  constructor
  · rw [Nat.ceilDiv_eq_add_pred_div]
    unfold recomputeEstimate
    have hd : n * (c / n) + c % n = c := Nat.div_add_mod c n
    have hm : c % n < n := Nat.mod_lt c hn
    rcases Nat.eq_zero_or_pos (c % n) with h | h
    · have he : c + n - 1 = n * (c / n) + (n - 1) := by omega
      rw [he, Nat.mul_add_div hn, Nat.div_eq_of_lt (show n - 1 < n by omega)]
      simp [h]
    · have hmul : n * (c / n + 1) = n * (c / n) + n := by ring
      have he : c + n - 1 = n * (c / n + 1) + (c % n - 1) := by omega
      rw [he, Nat.mul_add_div hn,
        Nat.div_eq_of_lt (show c % n - 1 < n by omega)]
      simp [h]
  · intro scan fuel e0 buf sl con cap fin h
    obtain ⟨e, _, _, _, _, hfin, _⟩ :=
      gatherLoop_ok_shape scan n fuel e0 buf sl con cap fin h
    rw [hfin]
    exact recomputeEstimate_mul_ge con n hn

theorem recomputeEstimate_is_ceil_witness :
    recomputeEstimate 7 3 = 7 ⌈/⌉ 3 ∧
    ∀ scan fuel e0 buf sl con cap fin,
      gatherLoop scan 3 fuel e0 = GatherOutcome.ok buf sl con cap fin →
      con ≤ fin * 3 :=
  recomputeEstimate_is_ceil 7 3 (by decide)

/-- C3: on every iteration the buffer capacity is
`currentEstimate * numQueryCenters`; the pass is accepted exactly when
the final cumulative counter is at most that capacity (non-strict, so an
exact tie is accepted), and on acceptance the candidate buffer handed to
the refiner is truncated to exactly `consumed` entries; otherwise the
loop retries.  `hlen` states that the scan kernel writes in place and
preserves the buffer's allocated length. -/
theorem pass_capacity_and_acceptance (scan : Nat → PassState → PassState)
    (n est fuel : Nat) (s : PassState) (hn : 0 < n)
    (hs : s = scan est (initPassState (est * n) n))
    (hlen : ∀ e t, ((scan e t).stackNeighborIdxs).length =
      t.stackNeighborIdxs.length) :
    (s.cumsum ≤ est * n →
      gatherLoop scan n (fuel + 1) est =
        GatherOutcome.ok (s.stackNeighborIdxs.take s.cumsum) s.startLen
          s.cumsum (est * n) (recomputeEstimate s.cumsum n) ∧
      (s.stackNeighborIdxs.take s.cumsum).length = s.cumsum) ∧
    (est * n < s.cumsum →
      gatherLoop scan n (fuel + 1) est =
        gatherLoop scan n fuel (recomputeEstimate s.cumsum n)) := by
  have hn0 : n ≠ 0 := Nat.pos_iff_ne_zero.mp hn
  subst hs
  constructor
  · intro hacc
    constructor
    · rw [gatherLoop_succ]
      simp only [hn0, if_false, if_pos hacc]
    · have hl : (initPassState (est * n) n).stackNeighborIdxs.length = est * n := by
        simp [initPassState]
      rw [List.length_take, hlen, hl]
      omega
  · intro hover
    rw [gatherLoop_succ]
    simp only [hn0, if_false, if_neg (Nat.not_le.mpr hover)]

theorem pass_capacity_and_acceptance_witness :
    ((2 : Nat) ≤ 3 * 1 →
      gatherLoop (constScan 2 [(0, 2)]) 1 (0 + 1) 3 =
        GatherOutcome.ok ((List.replicate 3 (0 : Int)).take 2) [(0, 2)] 2
          (3 * 1) (recomputeEstimate 2 1) ∧
      ((List.replicate 3 (0 : Int)).take 2).length = 2) ∧
    (3 * 1 < 2 →
      gatherLoop (constScan 2 [(0, 2)]) 1 (0 + 1) 3 =
        gatherLoop (constScan 2 [(0, 2)]) 1 0 (recomputeEstimate 2 1)) :=
  pass_capacity_and_acceptance (constScan 2 [(0, 2)]) 1 3 0
    ⟨List.replicate 3 0, [(0, 2)], 2⟩ (by decide) rfl (fun _ _ => rfl)

/-- C4: idempotence of the converged estimate.  If a prior run of the
gather loop returned `fin`, then re-running it with the initial estimate
set to `fin` — the gather scan being a deterministic function of its
inputs, reporting the same consumed total `c` and records `r` on every
pass — completes in a single pass with no retry and produces the same
consumed total, the same SliceRecords, and the same final estimate. -/
theorem gather_idempotent (scan : Nat → PassState → PassState)
    (n fuel e0 : Nat) (buf : List Int) (sl : List (Nat × Nat))
    (con cap fin c : Nat) (r : List (Nat × Nat)) (hn : 0 < n)
    (hc : ∀ e s, (scan e s).cumsum = c)
    (hr : ∀ e s, (scan e s).startLen = r)
    (hprev : gatherLoop scan n fuel e0 = GatherOutcome.ok buf sl con cap fin) :
    ∃ buf2, gatherLoop scan n 1 fin =
      GatherOutcome.ok buf2 sl con (fin * n) fin := by
  obtain ⟨e, hbuf, hsl, hcon, hcap, hfin, hle⟩ :=
    gatherLoop_ok_shape scan n fuel e0 buf sl con cap fin hprev
  have hcon2 : con = c := by rw [hcon, hc]
  have hsl2 : sl = r := by rw [hsl, hr]
  have hfin2 : fin = recomputeEstimate c n := by rw [hfin, hcon2]
  have hacc : (scan fin (initPassState (fin * n) n)).cumsum ≤ fin * n := by
    rw [hc]
    calc c ≤ recomputeEstimate c n * n := recomputeEstimate_mul_ge c n hn
    _ = fin * n := by rw [hfin2]
  have h1 : (1 : Nat) = 0 + 1 := rfl
  refine ⟨List.take c (scan fin (initPassState (fin * n) n)).stackNeighborIdxs, ?_⟩
  rw [h1, gatherLoop_succ]
  simp only [Nat.pos_iff_ne_zero.mp hn, if_false, if_pos hacc]
  rw [hc, hr, hsl2, hcon2, hfin2]

theorem gather_idempotent_witness :
    ∃ buf2, gatherLoop (constScan 5 [(0, 5)]) 1 1 5 =
      GatherOutcome.ok buf2 [(0, 5)] 5 (5 * 1) 5 :=
  gather_idempotent (constScan 5 [(0, 5)]) 1 2 1 (List.replicate 5 0)
    [(0, 5)] 5 5 5 5 [(0, 5)] (by decide) (fun _ _ => rfl) (fun _ _ => rfl)
    (by decide)

/-- C5: when the gather loop accepts, the first tensor `forward` returns
is the element-wise square root of the squared-distance buffer produced
by the refinement step (`torch.sqrt(new_xyz_grid_dist2)`), so every
returned distance is a non-negative true Euclidean distance, not a
squared one. -/
theorem forward_returns_sqrt_of_dist2 (scan : Nat → PassState → PassState)
    (writtenDist2 : Nat → Nat → Fin 3 → ℚ)
    (writtenIdxs : Nat → Nat → Fin 3 → Int)
    (n fuel e0 : Nat) (buf : List Int) (sl : List (Nat × Nat))
    (con cap fin : Nat)
    (h : gatherLoop scan n fuel e0 = GatherOutcome.ok buf sl con cap fin) :
    ∃ d i, forward scan writtenDist2 writtenIdxs n fuel e0 =
      ForwardResult.ok d i fin ∧
      (∀ c g k, d c g k =
        Real.sqrt ((refineSlots writtenDist2 sl initGridDist2 c g k : ℚ) : ℝ)) ∧
      (∀ c g k, 0 ≤ d c g k) := by
  unfold forward
  rw [h]
  exact ⟨_, _, rfl, fun c g k => rfl, fun c g k => Real.sqrt_nonneg _⟩

theorem forward_returns_sqrt_of_dist2_witness :
    ∃ d i, forward (constScan 0 []) (fun _ _ _ => 2) (fun _ _ _ => 7) 1 1 1 =
      ForwardResult.ok d i 0 ∧
      (∀ c g k, d c g k =
        Real.sqrt ((refineSlots (fun _ _ _ => 2) [] initGridDist2 c g k : ℚ) : ℝ)) ∧
      (∀ c g k, 0 ≤ d c g k) :=
  forward_returns_sqrt_of_dist2 (constScan 0 []) (fun _ _ _ => 2)
    (fun _ _ _ => 7) 1 1 1 [] [] 0 1 0 (by decide)

/-- C6: every iteration of the retry loop begins from freshly allocated
state — the candidate buffer is all zeros, every SliceRecord is `(0, 0)`
and the cumulative counter is 0 — and when a pass overflows, the next
iteration is a recursive call carrying only the recomputed estimate, so
no buffer contents, slice records or counter value from the failed pass
survive into the next pass. -/
theorem retry_pass_state_fresh (scan : Nat → PassState → PassState)
    (n fuel est : Nat) (hn : 0 < n) :
    (∀ x ∈ (initPassState (est * n) n).stackNeighborIdxs, x = 0) ∧
    (∀ p ∈ (initPassState (est * n) n).startLen, p = (0, 0)) ∧
    (initPassState (est * n) n).cumsum = 0 ∧
    (est * n < (scan est (initPassState (est * n) n)).cumsum →
      gatherLoop scan n (fuel + 1) est =
        gatherLoop scan n fuel
          (recomputeEstimate (scan est (initPassState (est * n) n)).cumsum n)) := by
  refine ⟨?_, ?_, rfl, ?_⟩
  · intro x hx
    exact List.eq_of_mem_replicate hx
  · intro p hp
    exact List.eq_of_mem_replicate hp
  · intro hover
    rw [gatherLoop_succ]
    simp only [Nat.pos_iff_ne_zero.mp hn, if_false,
      if_neg (Nat.not_le.mpr hover)]

theorem retry_pass_state_fresh_witness :
    (∀ x ∈ (initPassState (1 * 2) 2).stackNeighborIdxs, x = 0) ∧
    (∀ p ∈ (initPassState (1 * 2) 2).startLen, p = (0, 0)) ∧
    (initPassState (1 * 2) 2).cumsum = 0 ∧
    (1 * 2 < ((constScan 9 []) 1 (initPassState (1 * 2) 2)).cumsum →
      gatherLoop (constScan 9 []) 2 (0 + 1) 1 =
        gatherLoop (constScan 9 []) 2 0
          (recomputeEstimate ((constScan 9 []) 1 (initPassState (1 * 2) 2)).cumsum 2)) :=
  retry_pass_state_fresh (constScan 9 []) 2 0 1 (by decide)

theorem validateInputs_some (xbc nbc : List Nat) (sr : ℚ) (ntg iae : Int)
    (h : xbc.length ≠ nbc.length ∨ sr ≤ 0 ∨ ntg ≤ 0 ∨ iae ≤ 0) :
    ∃ e, validateInputs xbc nbc sr ntg iae = some e := by
  unfold validateInputs
  by_cases h1 : xbc.length ≠ nbc.length
  · exact ⟨_, if_pos h1⟩
  · rw [if_neg h1]
    by_cases h2 : sr ≤ 0
    · exact ⟨_, if_pos h2⟩
    · rw [if_neg h2]
      by_cases h3 : ntg ≤ 0
      · exact ⟨_, if_pos h3⟩
      · rw [if_neg h3]
        have h4 : iae ≤ 0 := by tauto
        exact ⟨_, if_pos h4⟩

/-- C7: a batch-count length mismatch, or a non-positive searchRadius,
`num_total_grids` or initial estimate, makes the checked call fail fast:
a fatal error is produced before any scan begins — the same `.error`
results whatever the scan and refiner kernels are — and no output is
produced. -/
theorem invalid_inputs_fail_fast (xbc nbc : List Nat) (sr : ℚ)
    (ntg iae : Int)
    (h : xbc.length ≠ nbc.length ∨ sr ≤ 0 ∨ ntg ≤ 0 ∨ iae ≤ 0) :
    ∃ e, ∀ scan writtenDist2 writtenIdxs n fuel,
      forwardChecked scan writtenDist2 writtenIdxs xbc nbc sr ntg iae n
        fuel = Except.error e := by
  obtain ⟨e, he⟩ := validateInputs_some xbc nbc sr ntg iae h
  refine ⟨e, fun scan writtenDist2 writtenIdxs n fuel => ?_⟩
  unfold forwardChecked
  rw [he]

theorem invalid_inputs_fail_fast_witness :
    ∃ e, ∀ scan writtenDist2 writtenIdxs n fuel,
      forwardChecked scan writtenDist2 writtenIdxs [3] [1, 2] 1 8 2 n
        fuel = Except.error e :=
  invalid_inputs_fail_fast [3] [1, 2] 1 8 2 (Or.inl (by decide))

/-- C8: for every query center whose accepted candidate slice is empty
(its SliceRecord length is 0), all three output index slots of every one
of its grid samples keep the −1 sentinel the index tensor was
initialised with (`fill_(-1)`): the refiner writes none of them. -/
theorem empty_slice_idxs_neg_one (scan : Nat → PassState → PassState)
    (writtenDist2 : Nat → Nat → Fin 3 → ℚ)
    (writtenIdxs : Nat → Nat → Fin 3 → Int)
    (n fuel e0 : Nat) (buf : List Int) (sl : List (Nat × Nat))
    (con cap fin c off : Nat)
    (h : gatherLoop scan n fuel e0 = GatherOutcome.ok buf sl con cap fin)
    (hc : sl[c]? = some (off, 0)) :
    ∃ d i, forward scan writtenDist2 writtenIdxs n fuel e0 =
      ForwardResult.ok d i fin ∧ ∀ g k, i c g k = -1 := by
  unfold forward
  rw [h]
  refine ⟨_, _, rfl, ?_⟩
  intro g k
  show refineSlots writtenIdxs sl initGridIdxs c g k = -1
  unfold refineSlots
  rw [hc]
  simp [initGridIdxs]

theorem empty_slice_idxs_neg_one_witness :
    ∃ d i, forward (constScan 0 [(0, 0)]) (fun _ _ _ => 2)
      (fun _ _ _ => 7) 1 1 1 = ForwardResult.ok d i 0 ∧
      ∀ g k, i 0 g k = -1 :=
  empty_slice_idxs_neg_one (constScan 0 [(0, 0)]) (fun _ _ _ => 2)
    (fun _ _ _ => 7) 1 1 1 [] [(0, 0)] 0 1 0 0 0 (by decide) (by decide)

/-- C9: with zero query centers (`new_xyz` has zero rows, so
`num_new_xyz = 0`) `forward` does not return a well-formed empty result:
the estimate recomputation `cumsum[0].item() // num_new_xyz` divides by
zero on the very first pass, so the call raises `ZeroDivisionError`. -/
theorem forward_zero_centers_raises (scan : Nat → PassState → PassState)
    (writtenDist2 : Nat → Nat → Fin 3 → ℚ)
    (writtenIdxs : Nat → Nat → Fin 3 → Int)
    (fuel e0 : Nat) (hfuel : 0 < fuel) :
    forward scan writtenDist2 writtenIdxs 0 fuel e0 =
      ForwardResult.zeroDivisionError := by
  obtain ⟨m, rfl⟩ : ∃ m, fuel = m + 1 := ⟨fuel - 1, by omega⟩
  unfold forward
  rw [gatherLoop_succ]
  simp

theorem forward_zero_centers_raises_witness :
    forward (constScan 0 []) (fun _ _ _ => 2) (fun _ _ _ => 7) 0 1 5 =
      ForwardResult.zeroDivisionError :=
  forward_zero_centers_raises (constScan 0 []) (fun _ _ _ => 2)
    (fun _ _ _ => 7) 1 5 (by decide)

/-- C10: the squared-distance buffer is zero-initialised, so every
output slot the refiner leaves unset (a slot `k` beyond the candidate
count of its center's slice, which therefore keeps index −1) is returned
with distance exactly `√0 = 0`: the unset-distance sentinel is 0, not a
large value. -/
theorem unset_slot_distance_zero (scan : Nat → PassState → PassState)
    (writtenDist2 : Nat → Nat → Fin 3 → ℚ)
    (writtenIdxs : Nat → Nat → Fin 3 → Int)
    (n fuel e0 : Nat) (buf : List Int) (sl : List (Nat × Nat))
    (con cap fin c off len : Nat) (k : Fin 3)
    (h : gatherLoop scan n fuel e0 = GatherOutcome.ok buf sl con cap fin)
    (hc : sl[c]? = some (off, len)) (hk : len ≤ (k : Nat)) :
    ∃ d i, forward scan writtenDist2 writtenIdxs n fuel e0 =
      ForwardResult.ok d i fin ∧ ∀ g, i c g k = -1 ∧ d c g k = 0 := by
  unfold forward
  rw [h]
  refine ⟨_, _, rfl, ?_⟩
  intro g
  have hlt : ¬ ((k : Nat) < min len 3) := by omega
  constructor
  · show refineSlots writtenIdxs sl initGridIdxs c g k = -1
    unfold refineSlots
    rw [hc]
    simp [hlt, initGridIdxs]
  · show Real.sqrt ((refineSlots writtenDist2 sl initGridDist2 c g k : ℚ) : ℝ) = 0
    unfold refineSlots
    rw [hc]
    simp [hlt, initGridDist2]

theorem unset_slot_distance_zero_witness :
    ∃ d i, forward (constScan 0 [(0, 0)]) (fun _ _ _ => 2)
      (fun _ _ _ => 7) 1 1 1 = ForwardResult.ok d i 0 ∧
      ∀ g, i 0 g 2 = -1 ∧ d 0 g 2 = 0 :=
  unset_slot_distance_zero (constScan 0 [(0, 0)]) (fun _ _ _ => 2)
    (fun _ _ _ => 7) 1 1 1 [] [(0, 0)] 0 1 0 0 0 0 2 (by decide)
    (by decide) (by decide)

end ThreeNNPool
